import Mathlib

/-!
Shallow embedding of the SEO URL analyzer (src/enhanced-url-analyzer.py).

The program fetches each URL, parses the response with BeautifulSoup, and
derives SEO metrics.  We embed the parsed page as a `Doc`: the document-order
(pre-order) list of tag nodes, each carrying its tag name, attribute list and
text.  BeautifulSoup's html.parser lowercases tag and attribute names, so names
in a `Doc` are already normalized.  External library calls whose results the
repository merely consumes are oracle parameters: the two network requests
(load-time measurement and the content fetch), `urljoin`, `urlparse(...).netloc`,
and textstat's internal word/sentence/syllable counters.
-/

/-- One parsed tag of the page: tag name, attributes, and text content
(as exposed by BeautifulSoup's `.text` / `[attr]` accessors). -/
structure Node where
  tag : String
  attrs : List (String × String)
  text : String
deriving Repr, DecidableEq

/-- A parsed page: the nodes of the tag tree in document (pre-order) order,
as traversed by `soup.find_all`. -/
structure Doc where
  nodes : List Node
deriving Repr, DecidableEq

/-- One entry of the `headings` list built by `extract_headings`:
a dict with keys level and text. -/
structure HeadingRecord where
  level : String
  text : String
deriving Repr, DecidableEq

/-- One entry of the link lists built by `extract_internal_links` /
`extract_external_links`: a dict with keys url and anchor_text. -/
structure LinkRecord where
  url : String
  anchor_text : String
deriving Repr, DecidableEq

/-- The dict returned by `extract_meta_tags` (keys title and description). -/
structure MetaTags where
  title : String
  description : String
deriving Repr, DecidableEq

/-- One keyword entry (term and frequency) of the spec's `KeywordEntry`. -/
structure KeywordEntry where
  term : String
  frequency : Nat
deriving Repr, DecidableEq

/-- The result dict of `analyze_url` (lines 113-131 plus the headings key
added at line 154).  `load_time_ms` starts as the int 0 and is overwritten by
`get_load_time`, which returns None on failure, hence `Option Int`.
`headings := none` models the absence of the headings dict key: the key is
only inserted on the success path. -/
structure AnalysisResult where
  url : String
  status : String
  load_time_ms : Option Int
  meta_title : String
  meta_description : String
  h1_count : Nat
  h2_count : Nat
  h3_count : Nat
  h4_count : Nat
  h5_count : Nat
  h6_count : Nat
  word_count : Nat
  readability_score : ℚ
  internal_links : List LinkRecord
  internal_link_count : Nat
  external_links : List LinkRecord
  external_link_count : Nat
  headings : Option (List HeadingRecord)
deriving Repr, DecidableEq

/-- The dict keys present in an `AnalysisResult` record: the seventeen keys of
the initializer (lines 113-131) plus the headings key when it was added
(line 154).  There is no keywords key. -/
def result_keys (r : AnalysisResult) : List String :=
  ["url", "status", "load_time_ms", "meta_title", "meta_description",
   "h1_count", "h2_count", "h3_count", "h4_count", "h5_count", "h6_count",
   "word_count", "readability_score", "internal_links", "internal_link_count",
   "external_links", "external_link_count"]
  ++ (if r.headings.isSome then ["headings"] else [])

/-- Python `str.strip()`: drop leading and trailing whitespace.  Stated on
the character sequence so that it computes by structural recursion. -/
def py_strip (s : String) : String :=
  ⟨((s.data.dropWhile Char.isWhitespace).reverse.dropWhile Char.isWhitespace).reverse⟩

/-- Python `str.upper()`. -/
def py_upper (s : String) : String := ⟨s.data.map Char.toUpper⟩

/-- Python `str.lower()`. -/
def py_lower (s : String) : String := ⟨s.data.map Char.toLower⟩

/-- Python `str.startswith(prefix)`. -/
def py_startswith (s pre : String) : Bool := pre.data.isPrefixOf s.data

/-- Python `sep.join(parts)`. -/
def py_join (sep : String) : List String → String
  | [] => ""
  | [x] => x
  | x :: xs => x ++ sep ++ py_join sep xs

/-- Embeds `preprocess_url` (lines 55-59): prefix https:// when the URL starts
with neither http:// nor https://. -/
def preprocess_url (url : String) : String :=
  if py_startswith url "http://" || py_startswith url "https://" then url
  else "https://" ++ url

/-- Embeds `get_load_time` (lines 61-69).  The network call is an oracle:
`.ok ms` is a round-trip measured as `ms` milliseconds, `.error` any raised
exception.  The function catches every exception and returns None. -/
def get_load_time (outcome : Except String Int) : Option Int :=
  match outcome with
  | .ok ms => some ms
  | .error _ => none

/-- Embeds the title part of `extract_meta_tags` (line 74):
`soup.title.text.strip() if soup.title else ''`. -/
def title_text (soup : Doc) : String :=
  match soup.nodes.find? (fun n => n.tag == "title") with
  | some t => py_strip t.text
  | none => ""

/-- Embeds `soup.find('meta', attrs=dict(name='description'))` (line 75):
the first meta node whose name attribute value is exactly the string
description (BeautifulSoup compares a string-valued attrs filter by
equality; tag and attribute names were lowercased by the parser). -/
def find_meta_description (soup : Doc) : Option Node :=
  soup.nodes.find? (fun n => n.tag == "meta" && n.attrs.lookup "name" == some "description")

/-- Embeds `extract_meta_tags` (lines 71-77).  When the meta description tag
is found, line 76 subscripts it with the content attribute; a missing content
attribute raises KeyError, modelled as `.error`. -/
def extract_meta_tags (soup : Doc) : Except String MetaTags :=
  match find_meta_description soup with
  | none => .ok { title := title_text soup, description := "" }
  | some m =>
      match m.attrs.lookup "content" with
      | none => .error "KeyError: content"
      | some c => .ok { title := title_text soup, description := py_strip c }

/-- The list built by one iteration of the loop in `extract_headings`
(line 84): `soup.find_all('h<i>')` mapped to level/text dicts, with the level
string upper-cased. -/
def heading_block (soup : Doc) (i : Nat) : List HeadingRecord :=
  (soup.nodes.filter (fun n => n.tag == "h" ++ toString i)).map
    (fun h => { level := py_upper ("h" ++ toString i), text := py_strip h.text })

/-- Embeds `extract_headings` (lines 79-86): the loop over levels 1 to 6,
unrolled; each level's tags appear in document order within its block. -/
def extract_headings (soup : Doc) : List HeadingRecord :=
  heading_block soup 1 ++ heading_block soup 2 ++ heading_block soup 3 ++
  heading_block soup 4 ++ heading_block soup 5 ++ heading_block soup 6

/-- The document-order sequence of level-i heading texts:
`soup.find_all('h<i>')` with each tag's trimmed text. -/
def heading_texts (soup : Doc) (i : Nat) : List String :=
  (soup.nodes.filter (fun n => n.tag == "h" ++ toString i)).map (fun n => py_strip n.text)

/-- Embeds `sum(1 for h in headings if h['level'] == lvl)` (lines 155-160). -/
def count_level (hs : List HeadingRecord) (lvl : String) : Nat :=
  (hs.filter (fun h => h.level == lvl)).length

/-- Embeds `extract_internal_links` (lines 88-97).  `uj` is `urljoin` and
`nl` is `urlparse(...).netloc`, both external library functions taken as
oracles.  The loop runs over `soup.find_all('a', href=True)` (anchor nodes
carrying an href attribute) and keeps the resolved link when its netloc
equals the base URL's netloc. -/
def extract_internal_links (uj : String → String → String) (nl : String → String)
    (soup : Doc) (base_url : String) : List LinkRecord :=
  soup.nodes.filterMap (fun a =>
    if a.tag == "a" then
      match a.attrs.lookup "href" with
      | some h0 =>
          if nl (uj base_url h0) == nl base_url then
            some { url := uj base_url h0, anchor_text := py_strip a.text }
          else none
      | none => none
    else none)

/-- Embeds `extract_external_links` (lines 99-108): identical loop with the
complementary netloc test. -/
def extract_external_links (uj : String → String → String) (nl : String → String)
    (soup : Doc) (base_url : String) : List LinkRecord :=
  soup.nodes.filterMap (fun a =>
    if a.tag == "a" then
      match a.attrs.lookup "href" with
      | some h0 =>
          if nl (uj base_url h0) == nl base_url then none
          else some { url := uj base_url h0, anchor_text := py_strip a.text }
      | none => none
    else none)

/-- Embeds the corpus construction of line 140: the trimmed texts of all
p, div and span nodes joined by single spaces. -/
def corpus (soup : Doc) : String :=
  py_join " "
    ((soup.nodes.filter (fun n => n.tag == "p" || n.tag == "div" || n.tag == "span")).map
      (fun n => py_strip n.text))

/-- Python `str.split()` with no argument: split on whitespace runs,
dropping empty pieces. -/
def split_ws_aux : List Char → List Char → List String
  | [], cur => if cur.isEmpty then [] else [⟨cur.reverse⟩]
  | c :: rest, cur =>
      if c.isWhitespace then
        (if cur.isEmpty then [] else [⟨cur.reverse⟩]) ++ split_ws_aux rest []
      else split_ws_aux rest (c :: cur)

def py_split_ws (s : String) : List String := split_ws_aux s.data []

/-- Modelled from the spec: `textstat.flesch_reading_ease` is an external
library, not part of src/.  The spec gives the standard Flesch Reading Ease
formula and requires the sentinel 0 on zero sentences or zero words (textstat
returns 0 on ZeroDivisionError).  `cw`, `cs`, `csyl` are the library's own
word, sentence and syllable counters, taken as oracles. -/
def flesch_reading_ease (cw cs csyl : String → Nat) (text : String) : ℚ :=
  if cs text = 0 ∨ cw text = 0 then 0
  else
    206.835 - 1.015 * ((cw text : ℚ) / (cs text : ℚ))
      - 84.6 * ((csyl text : ℚ) / (cw text : ℚ))

/-- The result dict as initialized at lines 113-131, before the try block. -/
def init_result (url : String) : AnalysisResult :=
  { url := url
    status := "Success"
    load_time_ms := some 0
    meta_title := ""
    meta_description := ""
    h1_count := 0
    h2_count := 0
    h3_count := 0
    h4_count := 0
    h5_count := 0
    h6_count := 0
    word_count := 0
    readability_score := 0
    internal_links := []
    internal_link_count := 0
    external_links := []
    external_link_count := 0
    headings := none }

/-- Embeds `analyze_url` (lines 110-175).  `load_outcome` is the oracle for
the request inside `get_load_time`; `fetch_outcome` is the oracle for the
content fetch plus BeautifulSoup parse (html.parser does not raise on
malformed markup): `.error e` models `requests.get` raising with message `e`.
The try block mutates the result dict step by step; the first step that
raises jumps to the handler, which only sets status, keeping every field
assigned so far and leaving the rest at their defaults. -/
def analyze_url (load_outcome : Except String Int) (fetch_outcome : Except String Doc)
    (cw cs csyl : String → Nat) (uj : String → String → String) (nl : String → String)
    (url : String) : AnalysisResult :=
  let r1 := { init_result url with load_time_ms := get_load_time load_outcome }
  match fetch_outcome with
  | .error e => { r1 with status := "Error: " ++ e }
  | .ok soup =>
      let text_content := corpus soup
      let r3 := { r1 with
        word_count := (py_split_ws text_content).length
        readability_score := flesch_reading_ease cw cs csyl text_content }
      match extract_meta_tags soup with
      | .error e => { r3 with status := "Error: " ++ e }
      | .ok mt =>
          let hs := extract_headings soup
          let r5 := { r3 with
            meta_title := mt.title
            meta_description := mt.description
            headings := some hs
            h1_count := count_level hs "H1"
            h2_count := count_level hs "H2"
            h3_count := count_level hs "H3"
            h4_count := count_level hs "H4"
            h5_count := count_level hs "H5"
            h6_count := count_level hs "H6" }
          let il := extract_internal_links uj nl soup url
          let el := extract_external_links uj nl soup url
          { r5 with
            internal_links := il
            internal_link_count := il.length
            external_links := el
            external_link_count := el.length }

/-- Embeds the batch portion of `main` (lines 250-266): truncate the list to
10 with a warning flag when longer, then run `analyze_url` on each URL in
order, appending results.  The per-URL oracles become functions of the URL.
Note the loop passes each URL to `analyze_url` verbatim: `preprocess_url` is
never called. -/
def run_batch (load_of : String → Except String Int) (fetch_of : String → Except String Doc)
    (cw cs csyl : String → Nat) (uj : String → String → String) (nl : String → String)
    (urls : List String) : List AnalysisResult × Bool :=
  if urls.length > 10 then
    ((urls.take 10).map (fun u => analyze_url (load_of u) (fetch_of u) cw cs csyl uj nl u),
      true)
  else
    (urls.map (fun u => analyze_url (load_of u) (fetch_of u) cw cs csyl uj nl u), false)

/-- Python `str.isalnum()`: nonempty and every character alphanumeric.
A token of pure punctuation is therefore rejected by this test. -/
def py_isalnum (s : String) : Bool :=
  s != "" && s.data.all Char.isAlphanum

/-- Number of occurrences of a term in the token list. -/
def term_freq (toks : List String) (t : String) : Nat :=
  (toks.filter (fun x => x == t)).length

/-- The distinct tokens of a list in order of first appearance. -/
def distinct_in_order (toks : List String) : List String :=
  toks.foldl (fun acc t => if t ∈ acc then acc else acc ++ [t]) []

/-- Insert a keyword entry into a list sorted by decreasing frequency,
after every entry of frequency at least its own (so equal frequencies keep
their relative order). -/
def insert_desc (e : KeywordEntry) : List KeywordEntry → List KeywordEntry
  | [] => [e]
  | x :: xs => if x.frequency < e.frequency then e :: x :: xs else x :: insert_desc e xs

/-- Stable sort by decreasing frequency (insertion sort, left to right). -/
def sort_desc (l : List KeywordEntry) : List KeywordEntry :=
  l.foldl (fun acc e => insert_desc e acc) []

/-- Modelled from the spec: keyword extraction (spec section 4.3) is absent
from src/ — the nltk, Counter and stopwords imports at lines 8-12 are never
used and `analyze_url` computes no keywords.  Following the spec's words:
tokenize (tokenizer `tk` is the external library's, an oracle), lowercase,
discard stop words and tokens that are not purely alphanumeric (which covers
pure-punctuation tokens), count frequencies, and return the top `n` by
frequency, ties broken by first appearance in the corpus. -/
def extract_keywords (tk : String → List String) (sw : List String) (n : Nat)
    (text : String) : List KeywordEntry :=
  let toks := ((tk text).map py_lower).filter
    (fun t => !(sw.contains t) && py_isalnum t)
  let entries := (distinct_in_order toks).map
    (fun t => { term := t, frequency := term_freq toks t : KeywordEntry })
  (sort_desc entries).take n

/-! Helper lemmas: the three shapes an `analyze_url` run can take. -/

lemma analyze_url_fetch_error (lo : Except String Int) (e : String)
    (cw cs csyl : String → Nat) (uj : String → String → String) (nl : String → String)
    (url : String) :
    analyze_url lo (.error e) cw cs csyl uj nl url =
      { init_result url with
          load_time_ms := get_load_time lo
          status := "Error: " ++ e } := rfl

lemma analyze_url_meta_error (lo : Except String Int) (soup : Doc) (e : String)
    (cw cs csyl : String → Nat) (uj : String → String → String) (nl : String → String)
    (url : String) (hm : extract_meta_tags soup = .error e) :
    analyze_url lo (.ok soup) cw cs csyl uj nl url =
      { init_result url with
          load_time_ms := get_load_time lo
          status := "Error: " ++ e
          word_count := (py_split_ws (corpus soup)).length
          readability_score := flesch_reading_ease cw cs csyl (corpus soup) } := by
  simp only [analyze_url]
  rw [hm]

lemma analyze_url_ok (lo : Except String Int) (soup : Doc) (mt : MetaTags)
    (cw cs csyl : String → Nat) (uj : String → String → String) (nl : String → String)
    (url : String) (hm : extract_meta_tags soup = .ok mt) :
    analyze_url lo (.ok soup) cw cs csyl uj nl url =
      { url := url
        status := "Success"
        load_time_ms := get_load_time lo
        meta_title := mt.title
        meta_description := mt.description
        h1_count := count_level (extract_headings soup) "H1"
        h2_count := count_level (extract_headings soup) "H2"
        h3_count := count_level (extract_headings soup) "H3"
        h4_count := count_level (extract_headings soup) "H4"
        h5_count := count_level (extract_headings soup) "H5"
        h6_count := count_level (extract_headings soup) "H6"
        word_count := (py_split_ws (corpus soup)).length
        readability_score := flesch_reading_ease cw cs csyl (corpus soup)
        internal_links := extract_internal_links uj nl soup url
        internal_link_count := (extract_internal_links uj nl soup url).length
        external_links := extract_external_links uj nl soup url
        external_link_count := (extract_external_links uj nl soup url).length
        headings := some (extract_headings soup) } := by
  simp only [analyze_url]
  rw [hm]
  rfl

lemma error_status_ne_success (e : String) : "Error: " ++ e ≠ "Success" := by
  intro h
  have h1 : ("Error: " ++ e).length = ("Success" : String).length := by rw [h]
  rw [String.length_append] at h1
  have h2 : e.length = 0 := by
    have hE : ("Error: " : String).length = 7 := rfl
    have hS : ("Success" : String).length = 7 := rfl
    omega
  have h3 : e = "" := by
    cases e with
    | mk data =>
        simp only [String.length, List.length_eq_zero] at h2
        simp [h2]
  rw [h3] at h
  exact absurd h (by decide)

lemma analyze_url_url (lo : Except String Int) (fo : Except String Doc)
    (cw cs csyl : String → Nat) (uj : String → String → String) (nl : String → String)
    (url : String) :
    (analyze_url lo fo cw cs csyl uj nl url).url = url := by
  cases fo with
  | error e => rfl
  | ok soup =>
      cases hm : extract_meta_tags soup with
      | error e =>
          rw [analyze_url_meta_error lo soup e cw cs csyl uj nl url hm]
          rfl
      | ok mt =>
          rw [analyze_url_ok lo soup mt cw cs csyl uj nl url hm]

lemma map_url_analyze (load_of : String → Except String Int)
    (fetch_of : String → Except String Doc) (cw cs csyl : String → Nat)
    (uj : String → String → String) (nl : String → String) (l : List String) :
    (l.map (fun u => analyze_url (load_of u) (fetch_of u) cw cs csyl uj nl u)).map
      (fun r => r.url) = l := by
  induction l with
  | nil => rfl
  | cons x xs ih => simp [analyze_url_url, ih]

/-- A page whose meta description tag has no content attribute; line 76 of the
source raises KeyError on it, after word count and readability were already
computed from the p node. -/
def doc_bad_meta : Doc :=
  ⟨[{ tag := "p", attrs := [], text := "hello world" },
    { tag := "meta", attrs := [("name", "description")], text := "" }]⟩

/-- C1 counterexample: a run that fails in meta-tag extraction (its meta
description tag lacks a content attribute) returns an error-status record
whose word_count is 2 and whose load_time_ms is 123 — numeric fields are not
at their zero defaults, so error records can be partially populated. -/
theorem analyze_error_partial_cex :
    (analyze_url (.ok 123) (.ok doc_bad_meta) (fun _ => 1) (fun _ => 1) (fun _ => 1)
      (fun _ h => h) (fun _ => "") "http://x").status = "Error: KeyError: content"
    ∧ (analyze_url (.ok 123) (.ok doc_bad_meta) (fun _ => 1) (fun _ => 1) (fun _ => 1)
      (fun _ h => h) (fun _ => "") "http://x").word_count = 2
    ∧ (analyze_url (.ok 123) (.ok doc_bad_meta) (fun _ => 1) (fun _ => 1) (fun _ => 1)
      (fun _ h => h) (fun _ => "") "http://x").load_time_ms = some 123 := by
  refine ⟨rfl, rfl, rfl⟩

/-- C1 (amended): when a run fails, the fields assigned before the failing
step keep their computed values and only the fields not yet assigned stay at
their defaults.  A content-fetch failure leaves every extraction field at its
default (only load_time_ms reflects the separate measurement); a meta-tag
failure additionally keeps the already-computed word count and readability
score. -/
theorem analyze_error_shapes (lo : Except String Int) (fo : Except String Doc)
    (cw cs csyl : String → Nat) (uj : String → String → String) (nl : String → String)
    (url : String) :
    (∀ e, fo = .error e →
      analyze_url lo fo cw cs csyl uj nl url =
        { init_result url with
            load_time_ms := get_load_time lo
            status := "Error: " ++ e })
    ∧ (∀ soup e, fo = .ok soup → extract_meta_tags soup = .error e →
      analyze_url lo fo cw cs csyl uj nl url =
        { init_result url with
            load_time_ms := get_load_time lo
            status := "Error: " ++ e
            word_count := (py_split_ws (corpus soup)).length
            readability_score := flesch_reading_ease cw cs csyl (corpus soup) }) := by
  constructor
  · intro e h
    subst h
    exact analyze_url_fetch_error lo e cw cs csyl uj nl url
  · intro soup e hfo hm
    subst hfo
    exact analyze_url_meta_error lo soup e cw cs csyl uj nl url hm

/-- Witness for C1 (amended): both error shapes at concrete inputs. -/
theorem analyze_error_shapes_witness :
    analyze_url (.ok 5) (.error "timeout") (fun _ => 1) (fun _ => 1) (fun _ => 1)
      (fun _ h => h) (fun _ => "") "u" =
      { init_result "u" with
          load_time_ms := get_load_time (.ok 5)
          status := "Error: " ++ "timeout" }
    ∧ analyze_url (.ok 5) (.ok doc_bad_meta) (fun _ => 1) (fun _ => 1) (fun _ => 1)
      (fun _ h => h) (fun _ => "") "u" =
      { init_result "u" with
          load_time_ms := get_load_time (.ok 5)
          status := "Error: " ++ "KeyError: content"
          word_count := (py_split_ws (corpus doc_bad_meta)).length
          readability_score := flesch_reading_ease (fun _ => 1) (fun _ => 1) (fun _ => 1)
            (corpus doc_bad_meta) } :=
  ⟨(analyze_error_shapes (.ok 5) (.error "timeout") (fun _ => 1) (fun _ => 1) (fun _ => 1)
      (fun _ h => h) (fun _ => "") "u").1 "timeout" rfl,
   (analyze_error_shapes (.ok 5) (.ok doc_bad_meta) (fun _ => 1) (fun _ => 1) (fun _ => 1)
      (fun _ h => h) (fun _ => "") "u").2 doc_bad_meta "KeyError: content" rfl rfl⟩

/-- C2: the batch produces exactly min(length, 10) results, output order (as
witnessed by each record's url) equals truncated input order, and the warning
flag is raised exactly when the input exceeds 10 URLs. -/
theorem batch_truncation_order (load_of : String → Except String Int)
    (fetch_of : String → Except String Doc) (cw cs csyl : String → Nat)
    (uj : String → String → String) (nl : String → String) (urls : List String) :
    (run_batch load_of fetch_of cw cs csyl uj nl urls).1.length = min urls.length 10
    ∧ (run_batch load_of fetch_of cw cs csyl uj nl urls).1.map (fun r => r.url)
        = urls.take 10
    ∧ ((run_batch load_of fetch_of cw cs csyl uj nl urls).2 = true ↔ 10 < urls.length) := by
  by_cases h : urls.length > 10
  · refine ⟨?_, ?_, ?_⟩
    · simp only [run_batch, if_pos h, List.length_map, List.length_take]
      omega
    · simp only [run_batch, if_pos h]
      exact map_url_analyze load_of fetch_of cw cs csyl uj nl (urls.take 10)
    · simp [run_batch, if_pos h, h]
  · have hle : urls.length ≤ 10 := by omega
    have htake : urls.take 10 = urls := List.take_of_length_le hle
    refine ⟨?_, ?_, ?_⟩
    · simp only [run_batch, if_neg h, List.length_map]
      omega
    · simp only [run_batch, if_neg h, htake]
      exact map_url_analyze load_of fetch_of cw cs csyl uj nl urls
    · simp only [run_batch, if_neg h]
      constructor
      · intro hfalse
        exact absurd hfalse (by simp)
      · intro hgt
        omega

/-- Witness for C2 at a concrete 12-URL batch: 10 results, in input order. -/
theorem batch_truncation_order_witness :
    (run_batch (fun _ => .error "t") (fun _ => .error "t") (fun _ => 1) (fun _ => 1)
      (fun _ => 1) (fun _ h => h) (fun _ => "")
      ["a", "b", "c", "d", "e", "f", "g", "h", "i", "j", "k", "l"]).1.length =
      min (["a", "b", "c", "d", "e", "f", "g", "h", "i", "j", "k", "l"] : List String).length 10
    ∧ (run_batch (fun _ => .error "t") (fun _ => .error "t") (fun _ => 1) (fun _ => 1)
      (fun _ => 1) (fun _ h => h) (fun _ => "")
      ["a", "b", "c", "d", "e", "f", "g", "h", "i", "j", "k", "l"]).1.map (fun r => r.url)
      = (["a", "b", "c", "d", "e", "f", "g", "h", "i", "j", "k", "l"] : List String).take 10 :=
  ⟨(batch_truncation_order (fun _ => .error "t") (fun _ => .error "t") (fun _ => 1)
      (fun _ => 1) (fun _ => 1) (fun _ h => h) (fun _ => "")
      ["a", "b", "c", "d", "e", "f", "g", "h", "i", "j", "k", "l"]).1,
   (batch_truncation_order (fun _ => .error "t") (fun _ => .error "t") (fun _ => 1)
      (fun _ => 1) (fun _ => 1) (fun _ h => h) (fun _ => "")
      ["a", "b", "c", "d", "e", "f", "g", "h", "i", "j", "k", "l"]).2.1⟩

/-- C7 counterexample: a run whose load-time measurement fails while the
content fetch succeeds (on a page whose meta description tag lacks a content
attribute) ends with an error status, not Success — so a successful content
fetch does not by itself guarantee a Success status, refuting the claim's
unconditional clause. -/
theorem load_success_claim_cex :
    (analyze_url (.error "slow") (.ok doc_bad_meta) (fun _ => 1) (fun _ => 1) (fun _ => 1)
      (fun _ h => h) (fun _ => "") "u").status = "Error: KeyError: content"
    ∧ (analyze_url (.error "slow") (.ok doc_bad_meta) (fun _ => 1) (fun _ => 1) (fun _ => 1)
      (fun _ h => h) (fun _ => "") "u").status ≠ "Success"
    ∧ (analyze_url (.error "slow") (.ok doc_bad_meta) (fun _ => 1) (fun _ => 1) (fun _ => 1)
      (fun _ h => h) (fun _ => "") "u").load_time_ms = none := by
  refine ⟨rfl, by decide, rfl⟩

/-- C7 (amended): a failure of the load-time measurement call never aborts
the pipeline run — the result's status is entirely independent of the
load-time outcome, a load-time failure only sets load_time_ms to null, and
when the content fetch and the subsequent extraction succeed the status is
Success with load_time_ms null; conversely a content-fetch failure
short-circuits the rest of that URL's pipeline, leaving every extraction
field at its default.  (A successful content fetch alone does not guarantee
a Success status: a later extraction failure still yields an error status.) -/
theorem load_failure_isolated (lo : Except String Int) (fo : Except String Doc)
    (cw cs csyl : String → Nat) (uj : String → String → String) (nl : String → String)
    (url : String) :
    (∀ lo' : Except String Int,
      (analyze_url lo fo cw cs csyl uj nl url).status
        = (analyze_url lo' fo cw cs csyl uj nl url).status)
    ∧ (∀ le, (analyze_url (.error le) fo cw cs csyl uj nl url).load_time_ms = none)
    ∧ (∀ le soup mt, extract_meta_tags soup = .ok mt →
      (analyze_url (.error le) (.ok soup) cw cs csyl uj nl url).status = "Success"
      ∧ (analyze_url (.error le) (.ok soup) cw cs csyl uj nl url).load_time_ms = none
      ∧ (analyze_url (.error le) (.ok soup) cw cs csyl uj nl url).headings
          = some (extract_headings soup))
    ∧ (∀ e, fo = .error e →
      analyze_url lo fo cw cs csyl uj nl url =
        { init_result url with
            load_time_ms := get_load_time lo
            status := "Error: " ++ e }) := by
  refine ⟨?_, ?_, ?_, ?_⟩
  · intro lo'
    cases fo with
    | error e =>
        rw [analyze_url_fetch_error lo e cw cs csyl uj nl url,
          analyze_url_fetch_error lo' e cw cs csyl uj nl url]
    | ok soup =>
        cases hm : extract_meta_tags soup with
        | error e =>
            rw [analyze_url_meta_error lo soup e cw cs csyl uj nl url hm,
              analyze_url_meta_error lo' soup e cw cs csyl uj nl url hm]
        | ok mt =>
            rw [analyze_url_ok lo soup mt cw cs csyl uj nl url hm,
              analyze_url_ok lo' soup mt cw cs csyl uj nl url hm]
  · intro le
    cases fo with
    | error e => rfl
    | ok soup =>
        cases hm : extract_meta_tags soup with
        | error e =>
            rw [analyze_url_meta_error (.error le) soup e cw cs csyl uj nl url hm]
            rfl
        | ok mt =>
            rw [analyze_url_ok (.error le) soup mt cw cs csyl uj nl url hm]
            rfl
  · intro le soup mt hm
    rw [analyze_url_ok (.error le) soup mt cw cs csyl uj nl url hm]
    exact ⟨rfl, rfl, rfl⟩
  · intro e h
    subst h
    exact analyze_url_fetch_error lo e cw cs csyl uj nl url

/-- Witness for C7 (amended): the status of a concrete fetched-but-bad-meta
run is the same whether the load-time call failed or measured 9ms; a run with
failed load-time measurement and a successful fetch of the empty page is a
Success with null load time; and a concrete fetch failure yields the
all-defaults error record. -/
theorem load_failure_isolated_witness :
    (analyze_url (.error "slow") (.ok doc_bad_meta) (fun _ => 1) (fun _ => 1) (fun _ => 1)
      (fun _ h => h) (fun _ => "") "u").status
      = (analyze_url (.ok 9) (.ok doc_bad_meta) (fun _ => 1) (fun _ => 1) (fun _ => 1)
      (fun _ h => h) (fun _ => "") "u").status
    ∧ (analyze_url (.error "slow") (.ok ⟨[]⟩) (fun _ => 1) (fun _ => 1) (fun _ => 1)
      (fun _ h => h) (fun _ => "") "u").status = "Success"
    ∧ (analyze_url (.error "slow") (.ok ⟨[]⟩) (fun _ => 1) (fun _ => 1) (fun _ => 1)
      (fun _ h => h) (fun _ => "") "u").load_time_ms = none
    ∧ (analyze_url (.error "slow") (.ok ⟨[]⟩) (fun _ => 1) (fun _ => 1) (fun _ => 1)
      (fun _ h => h) (fun _ => "") "u").headings = some (extract_headings ⟨[]⟩)
    ∧ analyze_url (.ok 7) (.error "refused") (fun _ => 1) (fun _ => 1) (fun _ => 1)
      (fun _ h => h) (fun _ => "") "u" =
      { init_result "u" with
          load_time_ms := get_load_time (.ok 7)
          status := "Error: " ++ "refused" } := by
  have h0 := (load_failure_isolated (.error "slow") (.ok doc_bad_meta) (fun _ => 1)
    (fun _ => 1) (fun _ => 1) (fun _ h => h) (fun _ => "") "u").1 (.ok 9)
  have h1 := (load_failure_isolated (.ok 7) (.error "refused") (fun _ => 1) (fun _ => 1)
    (fun _ => 1) (fun _ h => h) (fun _ => "") "u").2.2.1 "slow" ⟨[]⟩
    { title := "", description := "" } rfl
  have h2 := (load_failure_isolated (.ok 7) (.error "refused") (fun _ => 1) (fun _ => 1)
    (fun _ => 1) (fun _ h => h) (fun _ => "") "u").2.2.2 "refused" rfl
  exact ⟨h0, h1.1, h1.2.1, h1.2.2, h2⟩

/-- C10: `analyze_url` always returns a record (the returned record carries
the input url); on any failed run the headings key is absent while the link
collections are the empty lists initialized before the try block, so the key
set of an error record differs from that of a success record, where the
headings key is present. -/
theorem result_key_shape (lo : Except String Int) (fo : Except String Doc)
    (cw cs csyl : String → Nat) (uj : String → String → String) (nl : String → String)
    (url : String) :
    ((analyze_url lo fo cw cs csyl uj nl url).status ≠ "Success" →
      (analyze_url lo fo cw cs csyl uj nl url).headings = none
      ∧ (analyze_url lo fo cw cs csyl uj nl url).internal_links = []
      ∧ (analyze_url lo fo cw cs csyl uj nl url).external_links = []
      ∧ "headings" ∉ result_keys (analyze_url lo fo cw cs csyl uj nl url))
    ∧ ((analyze_url lo fo cw cs csyl uj nl url).status = "Success" →
      "headings" ∈ result_keys (analyze_url lo fo cw cs csyl uj nl url))
    ∧ (analyze_url lo fo cw cs csyl uj nl url).url = url := by
  refine ⟨?_, ?_, analyze_url_url lo fo cw cs csyl uj nl url⟩
  · intro hne
    cases fo with
    | error e =>
        rw [analyze_url_fetch_error lo e cw cs csyl uj nl url]
        refine ⟨rfl, rfl, rfl, ?_⟩
        simp [result_keys, init_result]
    | ok soup =>
        cases hm : extract_meta_tags soup with
        | error e =>
            rw [analyze_url_meta_error lo soup e cw cs csyl uj nl url hm]
            refine ⟨rfl, rfl, rfl, ?_⟩
            simp [result_keys, init_result]
        | ok mt =>
            exfalso
            apply hne
            rw [analyze_url_ok lo soup mt cw cs csyl uj nl url hm]
  · intro hs
    cases fo with
    | error e =>
        rw [analyze_url_fetch_error lo e cw cs csyl uj nl url] at hs
        exact absurd hs (error_status_ne_success e)
    | ok soup =>
        cases hm : extract_meta_tags soup with
        | error e =>
            rw [analyze_url_meta_error lo soup e cw cs csyl uj nl url hm] at hs
            exact absurd hs (error_status_ne_success e)
        | ok mt =>
            rw [analyze_url_ok lo soup mt cw cs csyl uj nl url hm]
            simp [result_keys]

/-- Witness for C10: a concrete failed run has no headings key and empty link
lists; a concrete successful run has the headings key. -/
theorem result_key_shape_witness :
    ((analyze_url (.error "t") (.error "boom") (fun _ => 1) (fun _ => 1) (fun _ => 1)
        (fun _ h => h) (fun _ => "") "u").headings = none
      ∧ (analyze_url (.error "t") (.error "boom") (fun _ => 1) (fun _ => 1) (fun _ => 1)
        (fun _ h => h) (fun _ => "") "u").internal_links = []
      ∧ (analyze_url (.error "t") (.error "boom") (fun _ => 1) (fun _ => 1) (fun _ => 1)
        (fun _ h => h) (fun _ => "") "u").external_links = []
      ∧ "headings" ∉ result_keys (analyze_url (.error "t") (.error "boom") (fun _ => 1)
        (fun _ => 1) (fun _ => 1) (fun _ h => h) (fun _ => "") "u"))
    ∧ "headings" ∈ result_keys (analyze_url (.ok 1) (.ok ⟨[]⟩) (fun _ => 1) (fun _ => 1)
        (fun _ => 1) (fun _ h => h) (fun _ => "") "u") :=
  ⟨(result_key_shape (.error "t") (.error "boom") (fun _ => 1) (fun _ => 1) (fun _ => 1)
      (fun _ h => h) (fun _ => "") "u").1 (by decide),
   (result_key_shape (.ok 1) (.ok ⟨[]⟩) (fun _ => 1) (fun _ => 1) (fun _ => 1)
      (fun _ h => h) (fun _ => "") "u").2.1 rfl⟩

/-- C8 (code bug): `preprocess_url` does implement https-prefixing, but
`main` never calls it — the batch passes each raw URL to `analyze_url`
verbatim, so the scheme-less input example.com is analyzed as-is, not as
https://example.com. -/
theorem preprocess_url_never_applied :
    preprocess_url "example.com" = "https://example.com"
    ∧ ((run_batch (fun _ => .error "t") (fun _ => .error "t") (fun _ => 1) (fun _ => 1)
        (fun _ => 1) (fun _ h => h) (fun _ => "") ["example.com"]).1.map (fun r => r.url))
      = ["example.com"]
    ∧ "example.com" ≠ "https://example.com" := by
  refine ⟨rfl, rfl, by decide⟩

/-! Link classification lemmas (C3). -/

lemma mem_extract_internal_netloc (uj : String → String → String) (nl : String → String)
    (soup : Doc) (base : String) (r : LinkRecord)
    (hr : r ∈ extract_internal_links uj nl soup base) : nl r.url = nl base := by
  simp only [extract_internal_links, List.mem_filterMap] at hr
  obtain ⟨a, _, hfa⟩ := hr
  split at hfa
  · split at hfa
    · rename_i h0 heq
      split at hfa
      · rename_i hd
        cases hfa
        exact eq_of_beq hd
      · cases hfa
    · cases hfa
  · cases hfa

lemma mem_extract_external_netloc (uj : String → String → String) (nl : String → String)
    (soup : Doc) (base : String) (r : LinkRecord)
    (hr : r ∈ extract_external_links uj nl soup base) : nl r.url ≠ nl base := by
  simp only [extract_external_links, List.mem_filterMap] at hr
  obtain ⟨a, _, hfa⟩ := hr
  split at hfa
  · split at hfa
    · rename_i h0 heq
      split at hfa
      · cases hfa
      · rename_i hd
        cases hfa
        simpa using hd
    · cases hfa
  · cases hfa

lemma extract_internal_mem (uj : String → String → String) (nl : String → String)
    (soup : Doc) (base : String) (a : Node) (h0 : String)
    (ha : a ∈ soup.nodes) (ht : a.tag = "a") (hh : a.attrs.lookup "href" = some h0)
    (hd : nl (uj base h0) = nl base) :
    ({ url := uj base h0, anchor_text := py_strip a.text } : LinkRecord)
      ∈ extract_internal_links uj nl soup base := by
  simp only [extract_internal_links, List.mem_filterMap]
  exact ⟨a, ha, by simp [ht, hh, hd]⟩

lemma extract_external_mem (uj : String → String → String) (nl : String → String)
    (soup : Doc) (base : String) (a : Node) (h0 : String)
    (ha : a ∈ soup.nodes) (ht : a.tag = "a") (hh : a.attrs.lookup "href" = some h0)
    (hd : nl (uj base h0) ≠ nl base) :
    ({ url := uj base h0, anchor_text := py_strip a.text } : LinkRecord)
      ∈ extract_external_links uj nl soup base := by
  simp only [extract_external_links, List.mem_filterMap]
  exact ⟨a, ha, by simp [ht, hh, hd]⟩

/-- C3: for every anchor node with an href, the resolved link record is in
the internal list iff its netloc (host) equals the page's own netloc exactly,
in the external list iff it differs, and hence in exactly one of the two. -/
theorem link_partition (uj : String → String → String) (nl : String → String)
    (soup : Doc) (base : String) (a : Node) (h0 : String)
    (ha : a ∈ soup.nodes) (ht : a.tag = "a") (hh : a.attrs.lookup "href" = some h0) :
    (({ url := uj base h0, anchor_text := py_strip a.text } : LinkRecord)
        ∈ extract_internal_links uj nl soup base ↔ nl (uj base h0) = nl base)
    ∧ (({ url := uj base h0, anchor_text := py_strip a.text } : LinkRecord)
        ∈ extract_external_links uj nl soup base ↔ nl (uj base h0) ≠ nl base)
    ∧ ((({ url := uj base h0, anchor_text := py_strip a.text } : LinkRecord)
          ∈ extract_internal_links uj nl soup base
        ∧ ({ url := uj base h0, anchor_text := py_strip a.text } : LinkRecord)
          ∉ extract_external_links uj nl soup base)
      ∨ (({ url := uj base h0, anchor_text := py_strip a.text } : LinkRecord)
          ∈ extract_external_links uj nl soup base
        ∧ ({ url := uj base h0, anchor_text := py_strip a.text } : LinkRecord)
          ∉ extract_internal_links uj nl soup base)) := by
  have hint : ({ url := uj base h0, anchor_text := py_strip a.text } : LinkRecord)
      ∈ extract_internal_links uj nl soup base ↔ nl (uj base h0) = nl base := by
    constructor
    · intro hr
      exact mem_extract_internal_netloc uj nl soup base _ hr
    · intro hd
      exact extract_internal_mem uj nl soup base a h0 ha ht hh hd
  have hext : ({ url := uj base h0, anchor_text := py_strip a.text } : LinkRecord)
      ∈ extract_external_links uj nl soup base ↔ nl (uj base h0) ≠ nl base := by
    constructor
    · intro hr
      exact mem_extract_external_netloc uj nl soup base _ hr
    · intro hd
      exact extract_external_mem uj nl soup base a h0 ha ht hh hd
  refine ⟨hint, hext, ?_⟩
  by_cases hd : nl (uj base h0) = nl base
  · exact Or.inl ⟨hint.mpr hd, fun hc => (hext.mp hc) hd⟩
  · exact Or.inr ⟨hext.mpr hd, fun hc => hd (hint.mp hc)⟩

/-- Witness for C3: a concrete page with one same-host anchor and one
other-host anchor, with urljoin and netloc instantiated concretely. -/
theorem link_partition_witness :
    (({ url := "host/x", anchor_text := "A" } : LinkRecord)
        ∈ extract_internal_links (fun _ h => h) (fun s => ⟨s.data.take 4⟩)
          ⟨[{ tag := "a", attrs := [("href", "host/x")], text := "A" }]⟩ "host"
      ↔ (⟨("host/x" : String).data.take 4⟩ : String) = ⟨("host" : String).data.take 4⟩)
    ∧ ((({ url := "host/x", anchor_text := "A" } : LinkRecord)
        ∈ extract_internal_links (fun _ h => h) (fun s => ⟨s.data.take 4⟩)
          ⟨[{ tag := "a", attrs := [("href", "host/x")], text := "A" }]⟩ "host"
      ∧ ({ url := "host/x", anchor_text := "A" } : LinkRecord)
        ∉ extract_external_links (fun _ h => h) (fun s => ⟨s.data.take 4⟩)
          ⟨[{ tag := "a", attrs := [("href", "host/x")], text := "A" }]⟩ "host")
      ∨ (({ url := "host/x", anchor_text := "A" } : LinkRecord)
        ∈ extract_external_links (fun _ h => h) (fun s => ⟨s.data.take 4⟩)
          ⟨[{ tag := "a", attrs := [("href", "host/x")], text := "A" }]⟩ "host"
      ∧ ({ url := "host/x", anchor_text := "A" } : LinkRecord)
        ∉ extract_internal_links (fun _ h => h) (fun s => ⟨s.data.take 4⟩)
          ⟨[{ tag := "a", attrs := [("href", "host/x")], text := "A" }]⟩ "host")) := by
  have h := link_partition (fun _ h => h) (fun s => ⟨s.data.take 4⟩)
    ⟨[{ tag := "a", attrs := [("href", "host/x")], text := "A" }]⟩ "host"
    { tag := "a", attrs := [("href", "host/x")], text := "A" } "host/x"
    (by simp) rfl rfl
  have hrec : py_strip ({ tag := "a", attrs := [("href", "host/x")], text := "A" } : Node).text
      = "A" := by decide
  refine ⟨?_, ?_⟩
  · have := h.1
    rw [hrec] at this
    exact this
  · have := h.2.2
    rw [hrec] at this
    exact this

/-- C4 counterexample: on a page whose meta description tag has no content
attribute, `extract_meta_tags` raises (KeyError from the subscript at line
76) instead of returning the empty string — the extraction is not total. -/
theorem extract_meta_tags_cex :
    extract_meta_tags doc_bad_meta = .error "KeyError: content"
    ∧ (analyze_url (.ok 1) (.ok doc_bad_meta) (fun _ => 1) (fun _ => 1) (fun _ => 1)
        (fun _ h => h) (fun _ => "") "u").status ≠ "Success" := by
  refine ⟨rfl, by decide⟩

/-- C4 (amended): meta-description extraction returns the trimmed content
attribute of the first meta tag whose name attribute value equals description
(tag and attribute names were lowercased by the parser; the value is compared
exactly), the empty string when no such tag exists, and raises KeyError —
surfacing as the record's error status — when the tag is present without a
content attribute. -/
theorem extract_meta_tags_amended (soup : Doc) :
    (find_meta_description soup = none →
      extract_meta_tags soup = .ok { title := title_text soup, description := "" })
    ∧ (∀ m, find_meta_description soup = some m →
        (∀ c, m.attrs.lookup "content" = some c →
          extract_meta_tags soup = .ok { title := title_text soup, description := py_strip c })
        ∧ (m.attrs.lookup "content" = none →
          extract_meta_tags soup = .error "KeyError: content")) := by
  constructor
  · intro h
    simp [extract_meta_tags, h]
  · intro m hm
    constructor
    · intro c hc
      simp [extract_meta_tags, hm, hc]
    · intro hc
      simp [extract_meta_tags, hm, hc]

/-- Witness for C4 (amended): all three shapes at concrete pages. -/
theorem extract_meta_tags_amended_witness :
    extract_meta_tags ⟨[]⟩ = .ok { title := title_text ⟨[]⟩, description := "" }
    ∧ extract_meta_tags ⟨[{ tag := "meta", attrs := [("name", "description"), ("content", " seo tips ")], text := "" }]⟩
        = .ok { title := title_text ⟨[{ tag := "meta", attrs := [("name", "description"), ("content", " seo tips ")], text := "" }]⟩,
                description := py_strip " seo tips " }
    ∧ extract_meta_tags doc_bad_meta = .error "KeyError: content" :=
  ⟨(extract_meta_tags_amended ⟨[]⟩).1 rfl,
   (((extract_meta_tags_amended
      ⟨[{ tag := "meta", attrs := [("name", "description"), ("content", " seo tips ")], text := "" }]⟩).2
      { tag := "meta", attrs := [("name", "description"), ("content", " seo tips ")], text := "" }
      rfl).1 " seo tips " rfl),
   (((extract_meta_tags_amended doc_bad_meta).2
      { tag := "meta", attrs := [("name", "description")], text := "" } rfl).2 rfl)⟩

/-! Heading count lemmas (C5). -/

lemma count_level_append (a b : List HeadingRecord) (lvl : String) :
    count_level (a ++ b) lvl = count_level a lvl + count_level b lvl := by
  simp [count_level, List.filter_append]

lemma count_level_block (soup : Doc) (i : Nat) (lvl : String) :
    count_level (heading_block soup i) lvl =
      if py_upper ("h" ++ toString i) == lvl then (heading_texts soup i).length else 0 := by
  unfold count_level heading_block heading_texts
  rw [List.filter_map]
  by_cases h : (py_upper ("h" ++ toString i) == lvl) = true
  · simp [h, Function.comp]
  · simp only [Bool.not_eq_true] at h
    simp [h, Function.comp]

lemma count_extract_h1 (soup : Doc) :
    count_level (extract_headings soup) "H1" = (heading_texts soup 1).length := by
  simp only [extract_headings, count_level_append, count_level_block]
  simp only [show (py_upper ("h" ++ toString 1) == "H1") = true from by decide,
    show (py_upper ("h" ++ toString 2) == "H1") = false from by decide,
    show (py_upper ("h" ++ toString 3) == "H1") = false from by decide,
    show (py_upper ("h" ++ toString 4) == "H1") = false from by decide,
    show (py_upper ("h" ++ toString 5) == "H1") = false from by decide,
    show (py_upper ("h" ++ toString 6) == "H1") = false from by decide]
  simp

lemma count_extract_h2 (soup : Doc) :
    count_level (extract_headings soup) "H2" = (heading_texts soup 2).length := by
  simp only [extract_headings, count_level_append, count_level_block]
  simp only [show (py_upper ("h" ++ toString 1) == "H2") = false from by decide,
    show (py_upper ("h" ++ toString 2) == "H2") = true from by decide,
    show (py_upper ("h" ++ toString 3) == "H2") = false from by decide,
    show (py_upper ("h" ++ toString 4) == "H2") = false from by decide,
    show (py_upper ("h" ++ toString 5) == "H2") = false from by decide,
    show (py_upper ("h" ++ toString 6) == "H2") = false from by decide]
  simp

lemma count_extract_h3 (soup : Doc) :
    count_level (extract_headings soup) "H3" = (heading_texts soup 3).length := by
  simp only [extract_headings, count_level_append, count_level_block]
  simp only [show (py_upper ("h" ++ toString 1) == "H3") = false from by decide,
    show (py_upper ("h" ++ toString 2) == "H3") = false from by decide,
    show (py_upper ("h" ++ toString 3) == "H3") = true from by decide,
    show (py_upper ("h" ++ toString 4) == "H3") = false from by decide,
    show (py_upper ("h" ++ toString 5) == "H3") = false from by decide,
    show (py_upper ("h" ++ toString 6) == "H3") = false from by decide]
  simp

lemma count_extract_h4 (soup : Doc) :
    count_level (extract_headings soup) "H4" = (heading_texts soup 4).length := by
  simp only [extract_headings, count_level_append, count_level_block]
  simp only [show (py_upper ("h" ++ toString 1) == "H4") = false from by decide,
    show (py_upper ("h" ++ toString 2) == "H4") = false from by decide,
    show (py_upper ("h" ++ toString 3) == "H4") = false from by decide,
    show (py_upper ("h" ++ toString 4) == "H4") = true from by decide,
    show (py_upper ("h" ++ toString 5) == "H4") = false from by decide,
    show (py_upper ("h" ++ toString 6) == "H4") = false from by decide]
  simp

lemma count_extract_h5 (soup : Doc) :
    count_level (extract_headings soup) "H5" = (heading_texts soup 5).length := by
  simp only [extract_headings, count_level_append, count_level_block]
  simp only [show (py_upper ("h" ++ toString 1) == "H5") = false from by decide,
    show (py_upper ("h" ++ toString 2) == "H5") = false from by decide,
    show (py_upper ("h" ++ toString 3) == "H5") = false from by decide,
    show (py_upper ("h" ++ toString 4) == "H5") = false from by decide,
    show (py_upper ("h" ++ toString 5) == "H5") = true from by decide,
    show (py_upper ("h" ++ toString 6) == "H5") = false from by decide]
  simp

lemma count_extract_h6 (soup : Doc) :
    count_level (extract_headings soup) "H6" = (heading_texts soup 6).length := by
  simp only [extract_headings, count_level_append, count_level_block]
  simp only [show (py_upper ("h" ++ toString 1) == "H6") = false from by decide,
    show (py_upper ("h" ++ toString 2) == "H6") = false from by decide,
    show (py_upper ("h" ++ toString 3) == "H6") = false from by decide,
    show (py_upper ("h" ++ toString 4) == "H6") = false from by decide,
    show (py_upper ("h" ++ toString 5) == "H6") = false from by decide,
    show (py_upper ("h" ++ toString 6) == "H6") = true from by decide]
  simp

/-- C5: on a successful run, the reported per-level heading counts equal the
lengths of the per-level heading-text sequences taken in document order, and
the headings collection is the extracted heading list. -/
theorem heading_counts_match (lo : Except String Int) (soup : Doc)
    (cw cs csyl : String → Nat) (uj : String → String → String) (nl : String → String)
    (url : String) (mt : MetaTags) (hm : extract_meta_tags soup = .ok mt) :
    (analyze_url lo (.ok soup) cw cs csyl uj nl url).headings
        = some (extract_headings soup)
    ∧ (analyze_url lo (.ok soup) cw cs csyl uj nl url).h1_count
        = (heading_texts soup 1).length
    ∧ (analyze_url lo (.ok soup) cw cs csyl uj nl url).h2_count
        = (heading_texts soup 2).length
    ∧ (analyze_url lo (.ok soup) cw cs csyl uj nl url).h3_count
        = (heading_texts soup 3).length
    ∧ (analyze_url lo (.ok soup) cw cs csyl uj nl url).h4_count
        = (heading_texts soup 4).length
    ∧ (analyze_url lo (.ok soup) cw cs csyl uj nl url).h5_count
        = (heading_texts soup 5).length
    ∧ (analyze_url lo (.ok soup) cw cs csyl uj nl url).h6_count
        = (heading_texts soup 6).length := by
  rw [analyze_url_ok lo soup mt cw cs csyl uj nl url hm]
  exact ⟨rfl, count_extract_h1 soup, count_extract_h2 soup, count_extract_h3 soup,
    count_extract_h4 soup, count_extract_h5 soup, count_extract_h6 soup⟩

/-- A concrete page with two h1 tags and one h2 tag. -/
def doc_heads : Doc :=
  ⟨[{ tag := "h1", attrs := [], text := "One" },
    { tag := "h2", attrs := [], text := "Two" },
    { tag := "h1", attrs := [], text := "Three" }]⟩

/-- Witness for C5 at a concrete page with two h1 tags and one h2 tag. -/
theorem heading_counts_match_witness :
    extract_meta_tags doc_heads = .ok { title := "", description := "" }
    ∧ ((analyze_url (.ok 1) (.ok doc_heads) (fun _ => 1) (fun _ => 1) (fun _ => 1)
        (fun _ h => h) (fun _ => "") "u").h1_count = (heading_texts doc_heads 1).length
    ∧ (analyze_url (.ok 1) (.ok doc_heads) (fun _ => 1) (fun _ => 1) (fun _ => 1)
        (fun _ h => h) (fun _ => "") "u").h2_count = (heading_texts doc_heads 2).length
    ∧ (analyze_url (.ok 1) (.ok doc_heads) (fun _ => 1) (fun _ => 1) (fun _ => 1)
        (fun _ h => h) (fun _ => "") "u").h1_count = 2
    ∧ (analyze_url (.ok 1) (.ok doc_heads) (fun _ => 1) (fun _ => 1) (fun _ => 1)
        (fun _ h => h) (fun _ => "") "u").h2_count = 1) := by
  have h := heading_counts_match (.ok 1) doc_heads (fun _ => 1) (fun _ => 1) (fun _ => 1)
    (fun _ h => h) (fun _ => "") "u" { title := "", description := "" } rfl
  exact ⟨rfl, h.2.1, h.2.2.1, by rw [h.2.1]; decide, by rw [h.2.2.1]; decide⟩

/-- C6: the readability computation is total and returns the sentinel 0
whenever the corpus has zero sentences or zero words; otherwise it is the
standard Flesch Reading Ease formula; and on any fetched page the result's
readability score is exactly this function applied to the page corpus. -/
theorem readability_sentinel (cw cs csyl : String → Nat) (t : String)
    (lo : Except String Int) (soup : Doc)
    (uj : String → String → String) (nl : String → String) (url : String) :
    ((cs t = 0 ∨ cw t = 0) → flesch_reading_ease cw cs csyl t = 0)
    ∧ (cs t ≠ 0 → cw t ≠ 0 →
      flesch_reading_ease cw cs csyl t =
        206.835 - 1.015 * ((cw t : ℚ) / (cs t : ℚ))
          - 84.6 * ((csyl t : ℚ) / (cw t : ℚ)))
    ∧ (analyze_url lo (.ok soup) cw cs csyl uj nl url).readability_score
        = flesch_reading_ease cw cs csyl (corpus soup) := by
  refine ⟨?_, ?_, ?_⟩
  · intro h
    simp [flesch_reading_ease, h]
  · intro hs hw
    have : ¬ (cs t = 0 ∨ cw t = 0) := by tauto
    simp [flesch_reading_ease, this]
  · cases hm : extract_meta_tags soup with
    | error e =>
        rw [analyze_url_meta_error lo soup e cw cs csyl uj nl url hm]
    | ok mt =>
        rw [analyze_url_ok lo soup mt cw cs csyl uj nl url hm]

/-- Witness for C6: with a zero-sentence counter the score is the sentinel 0,
and a concrete run's readability score equals the model on the page corpus. -/
theorem readability_sentinel_witness :
    flesch_reading_ease (fun _ => 3) (fun _ => 0) (fun _ => 5) "some text" = 0
    ∧ (analyze_url (.ok 1) (.ok ⟨[]⟩) (fun _ => 3) (fun _ => 0) (fun _ => 5)
        (fun _ h => h) (fun _ => "") "u").readability_score
      = flesch_reading_ease (fun _ => 3) (fun _ => 0) (fun _ => 5) (corpus ⟨[]⟩) :=
  ⟨(readability_sentinel (fun _ => 3) (fun _ => 0) (fun _ => 5) "some text" (.ok 1) ⟨[]⟩
      (fun _ h => h) (fun _ => "") "u").1 (Or.inl rfl),
   (readability_sentinel (fun _ => 3) (fun _ => 0) (fun _ => 5) "some text" (.ok 1) ⟨[]⟩
      (fun _ h => h) (fun _ => "") "u").2.2⟩

/-! Keyword extraction lemmas (C9). -/

lemma mem_insert_desc (e x : KeywordEntry) (l : List KeywordEntry) :
    x ∈ insert_desc e l ↔ x = e ∨ x ∈ l := by
  induction l with
  | nil => simp [insert_desc]
  | cons y ys ih =>
      simp only [insert_desc]
      split
      · simp [List.mem_cons]
      · simp only [List.mem_cons, ih]
        tauto

lemma mem_foldl_insert (l : List KeywordEntry) (acc : List KeywordEntry) (x : KeywordEntry) :
    x ∈ l.foldl (fun a e => insert_desc e a) acc ↔ x ∈ acc ∨ x ∈ l := by
  induction l generalizing acc with
  | nil => simp
  | cons y ys ih =>
      simp only [List.foldl_cons, ih, mem_insert_desc, List.mem_cons]
      tauto

lemma mem_sort_desc (l : List KeywordEntry) (x : KeywordEntry) :
    x ∈ sort_desc l ↔ x ∈ l := by
  simp [sort_desc, mem_foldl_insert]

lemma pairwise_insert_desc (e : KeywordEntry) (l : List KeywordEntry)
    (h : l.Pairwise (fun a b => b.frequency ≤ a.frequency)) :
    (insert_desc e l).Pairwise (fun a b => b.frequency ≤ a.frequency) := by
  induction l with
  | nil => simp [insert_desc]
  | cons y ys ih =>
      rw [List.pairwise_cons] at h
      obtain ⟨hy, hys⟩ := h
      simp only [insert_desc]
      split
      · rename_i hlt
        rw [List.pairwise_cons]
        constructor
        · intro z hz
          rcases List.mem_cons.mp hz with rfl | hz'
          · omega
          · exact le_trans (hy z hz') (le_of_lt hlt)
        · exact List.pairwise_cons.mpr ⟨hy, hys⟩
      · rename_i hge
        rw [List.pairwise_cons]
        constructor
        · intro z hz
          rcases (mem_insert_desc e z ys).mp hz with rfl | hz'
          · omega
          · exact hy z hz'
        · exact ih hys

lemma pairwise_foldl_insert (l : List KeywordEntry) (acc : List KeywordEntry)
    (h : acc.Pairwise (fun a b => b.frequency ≤ a.frequency)) :
    (l.foldl (fun a e => insert_desc e a) acc).Pairwise
      (fun a b => b.frequency ≤ a.frequency) := by
  induction l generalizing acc with
  | nil => simpa
  | cons y ys ih => exact ih (insert_desc y acc) (pairwise_insert_desc y acc h)

lemma pairwise_sort_desc (l : List KeywordEntry) :
    (sort_desc l).Pairwise (fun a b => b.frequency ≤ a.frequency) :=
  pairwise_foldl_insert l [] (List.Pairwise.nil)

lemma mem_foldl_distinct (l acc : List String) (t : String)
    (h : t ∈ l.foldl (fun a x => if x ∈ a then a else a ++ [x]) acc) :
    t ∈ acc ∨ t ∈ l := by
  induction l generalizing acc with
  | nil => exact Or.inl h
  | cons y ys ih =>
      simp only [List.foldl_cons] at h
      rcases ih _ h with hacc | hys
      · by_cases hy : y ∈ acc
        · rw [if_pos hy] at hacc
          exact Or.inl hacc
        · rw [if_neg hy] at hacc
          rcases List.mem_append.mp hacc with h1 | h2
          · exact Or.inl h1
          · simp only [List.mem_singleton] at h2
            exact Or.inr (by simp [h2])
      · exact Or.inr (List.mem_cons_of_mem y hys)

lemma mem_distinct_in_order (toks : List String) (t : String)
    (h : t ∈ distinct_in_order toks) : t ∈ toks := by
  rcases mem_foldl_distinct toks [] t h with hc | hc
  · cases hc
  · exact hc

lemma term_freq_pos (toks : List String) (t : String) (h : t ∈ toks) :
    1 ≤ term_freq toks t := by
  have hmem : t ∈ toks.filter (fun x => x == t) :=
    List.mem_filter.mpr ⟨h, by simp⟩
  exact List.length_pos_of_mem hmem

/-- C9 (amended): the spec-modelled keyword extractor is deterministic (two
runs on the same corpus agree), returns at most n entries, sorted by
non-increasing frequency with the stable sort preserving first-appearance
order among ties, and every returned entry is an alphanumeric non-stop-word
token whose frequency is its count in the filtered token list (hence at
least 1).  The src result record, however, carries no keywords collection
(see the counterexample). -/
theorem extract_keywords_props (tk : String → List String) (sw : List String) (n : Nat)
    (text : String) :
    extract_keywords tk sw n text = extract_keywords tk sw n text
    ∧ (extract_keywords tk sw n text).length ≤ n
    ∧ (extract_keywords tk sw n text).Pairwise (fun a b => b.frequency ≤ a.frequency)
    ∧ (∀ e ∈ extract_keywords tk sw n text,
        py_isalnum e.term = true ∧ sw.contains e.term = false ∧ 1 ≤ e.frequency
        ∧ e.frequency = term_freq (((tk text).map py_lower).filter
            (fun t => !(sw.contains t) && py_isalnum t)) e.term) := by
  refine ⟨rfl, ?_, ?_, ?_⟩
  · exact List.length_take_le n _
  · exact List.Pairwise.sublist (List.take_sublist n _) (pairwise_sort_desc _)
  · intro e he
    have he1 : e ∈ sort_desc ((distinct_in_order (((tk text).map py_lower).filter
        (fun t => !(sw.contains t) && py_isalnum t))).map
          (fun t => { term := t, frequency := term_freq (((tk text).map py_lower).filter
            (fun t => !(sw.contains t) && py_isalnum t)) t : KeywordEntry })) :=
      (List.take_sublist n _).subset he
    have he2 := (mem_sort_desc _ e).mp he1
    obtain ⟨t, ht, rfl⟩ := List.mem_map.mp he2
    have httoks := mem_distinct_in_order _ t ht
    obtain ⟨hmem, hcond⟩ := List.mem_filter.mp httoks
    rw [Bool.and_eq_true] at hcond
    obtain ⟨hnsw, haln⟩ := hcond
    rw [Bool.not_eq_true'] at hnsw
    exact ⟨haln, hnsw, term_freq_pos _ t httoks, rfl⟩

/-- Witness for C9 (amended) on a concrete tokenized corpus with a stop word
and a repeated term. -/
theorem extract_keywords_props_witness :
    (extract_keywords (fun _ => ["seo", "the", "seo", "tips"]) ["the"] 2 "c").length ≤ 2
    ∧ (py_isalnum ({ term := "seo", frequency := 2 } : KeywordEntry).term = true
      ∧ (["the"] : List String).contains ({ term := "seo", frequency := 2 } : KeywordEntry).term = false
      ∧ 1 ≤ ({ term := "seo", frequency := 2 } : KeywordEntry).frequency
      ∧ ({ term := "seo", frequency := 2 } : KeywordEntry).frequency
          = term_freq (((["seo", "the", "seo", "tips"] : List String).map py_lower).filter
              (fun t => !((["the"] : List String).contains t) && py_isalnum t))
            ({ term := "seo", frequency := 2 } : KeywordEntry).term) :=
  ⟨(extract_keywords_props (fun _ => ["seo", "the", "seo", "tips"]) ["the"] 2 "c").2.1,
   (extract_keywords_props (fun _ => ["seo", "the", "seo", "tips"]) ["the"] 2 "c").2.2.2
     { term := "seo", frequency := 2 } (by decide)⟩

/-- C9 counterexample: the claim also asserts the result record carries the
keywords collection, but the record returned by `analyze_url` has no keywords
key — not even on a successful run. -/
theorem keywords_absent_cex :
    "keywords" ∉ result_keys (analyze_url (.ok 1) (.ok ⟨[]⟩) (fun _ => 1) (fun _ => 1)
      (fun _ => 1) (fun _ h => h) (fun _ => "") "u")
    ∧ (analyze_url (.ok 1) (.ok ⟨[]⟩) (fun _ => 1) (fun _ => 1) (fun _ => 1)
      (fun _ h => h) (fun _ => "") "u").status = "Success" := by
  refine ⟨by decide, rfl⟩
